import Mathlib

/-!
Verification of the ChartGPU render-coordinator worker bridge, scales and
scheduler against their natural-language specification.

The embedding models:
- the linear and category scales of src/config/types.ts (exact arithmetic
  over the rationals standing in for f64 values; the JavaScript NaN result
  is modelled by Option.none),
- the worker-side data deserializer and the proxy-side serializer of
  src/worker/ChartGPUWorkerController.ts (an ArrayBuffer of f64 lanes is a
  List of rationals; byteLength is 8 times the lane count),
- the worker controller's message handlers and the main-thread proxy as
  explicit state-passing functions whose observable outcome (state change,
  messages sent, error emitted or thrown) is returned,
- the per-chart render notifier (renderPending flag plus message-port
  pulse) and the RenderScheduler frame loop as small transition systems.
-/

namespace ChartGPU

/-! ## Linear scale (createLinearScale, src/config/types.ts) -/

/-- State of a linear scale: domain and range endpoints.
Defaults mirror the identity mapping domain [0,1] to range [0,1]. -/
structure LinearScale where
  domainMin : ℚ := 0
  domainMax : ℚ := 1
  rangeMin : ℚ := 0
  rangeMax : ℚ := 1
deriving DecidableEq

/-- Maps a domain value to the range.
When the domain span is zero returns the midpoint of the range. -/
def LinearScale.scale (s : LinearScale) (value : ℚ) : ℚ :=
  if s.domainMin = s.domainMax then (s.rangeMin + s.rangeMax) / 2
  else
    let t := (value - s.domainMin) / (s.domainMax - s.domainMin)
    s.rangeMin + t * (s.rangeMax - s.rangeMin)

/-- Maps a range value (pixel) back to the domain.
Zero-width domain returns domain min; zero-width range returns the domain
midpoint. -/
def LinearScale.invert (s : LinearScale) (pixel : ℚ) : ℚ :=
  if s.domainMin = s.domainMax then s.domainMin
  else if s.rangeMin = s.rangeMax then (s.domainMin + s.domainMax) / 2
  else
    let t := (pixel - s.rangeMin) / (s.rangeMax - s.rangeMin)
    s.domainMin + t * (s.domainMax - s.domainMin)

/-! ## Category scale (createCategoryScale, src/config/types.ts) -/

/-- State of a category scale: the ordered category list and the range. -/
structure CategoryScale where
  categories : List String := []
  rangeMin : ℚ := 0
  rangeMax : ℚ := 1
deriving DecidableEq

/-- The duplicate search performed by rebuildIndex: walking the incoming
category list with the set of already-seen names, returning the first
duplicate found (the code throws at that point). -/
def findDup : List String → List String → Option String
  | [], _ => none
  | c :: rest, seen => if c ∈ seen then some c else findDup rest (c :: seen)

/-- Sets the category domain; throws (error) if duplicates exist. -/
def CategoryScale.setDomain (s : CategoryScale) (cs : List String) :
    Except String CategoryScale :=
  match findDup cs [] with
  | some c => .error ("Category domain must not contain duplicates. Duplicate: " ++ c)
  | none => .ok { s with categories := cs }

/-- Returns the index of a category in the current domain, -1 if unknown.
The uniqueness of the domain makes the map lookup of the source equal to
the first-occurrence index. -/
def CategoryScale.categoryIndex (s : CategoryScale) (c : String) : ℤ :=
  if c ∈ s.categories then (s.categories.indexOf c : ℤ) else -1

/-- Width allocated per category; 0 for an empty domain. -/
def CategoryScale.bandwidth (s : CategoryScale) : ℚ :=
  let n := s.categories.length
  if n = 0 then 0 else |(s.rangeMax - s.rangeMin) / (n : ℚ)|

/-- Center x-position for a category; none models the NaN returned for an
unknown category; an empty domain gives the midpoint of the range. -/
def CategoryScale.scale (s : CategoryScale) (c : String) : Option ℚ :=
  let n := s.categories.length
  if n = 0 then some ((s.rangeMin + s.rangeMax) / 2)
  else
    let i := s.categoryIndex c
    if i < 0 then none
    else some (s.rangeMin + ((i : ℚ) + 1/2) * ((s.rangeMax - s.rangeMin) / (n : ℚ)))

/-! ## Data transfer buffers (src/worker/ChartGPUWorkerController.ts)

An ArrayBuffer carrying interleaved f64 point data is modelled as the list
of its 8-byte lanes (the Float64Array view); its byteLength is 8 times the
lane count. -/

/-- The byte length of a buffer of f64 lanes. -/
def byteLength (buffer : List ℚ) : ℤ := 8 * buffer.length

/-- Deserialized point data: either [x, y] tuples (stride 16) or
[timestamp, open, close, low, high] tuples (stride 40). -/
inductive DataPoints where
  | xy (points : List (ℚ × ℚ))
  | ohlc (points : List (ℚ × ℚ × ℚ × ℚ × ℚ))
deriving DecidableEq

/-- Number of points held. -/
def DataPoints.count : DataPoints → ℕ
  | .xy l => l.length
  | .ohlc l => l.length

/-- The stride-16 read loop: pointCount iterations, each consuming the two
lanes at offsets 2i and 2i+1 of the Float64Array view. -/
def readPairs : ℕ → List ℚ → List (ℚ × ℚ)
  | 0, _ => []
  | n + 1, x :: y :: rest => (x, y) :: readPairs n rest
  | _ + 1, _ => []

/-- The stride-40 read loop: pointCount iterations, each consuming the five
lanes at offsets 5i .. 5i+4 of the Float64Array view. -/
def readQuints : ℕ → List ℚ → List (ℚ × ℚ × ℚ × ℚ × ℚ)
  | 0, _ => []
  | n + 1, t :: o :: c :: l :: h :: rest => (t, o, c, l, h) :: readQuints n rest
  | _ + 1, _ => []

/-- Deserializes an ArrayBuffer into DataPoint or OHLCDataPoint tuples.
Validates byteLength = pointCount * stride first (fail fast), then
dispatches on the stride: 16 reads [x, y] pairs, 40 reads
[timestamp, open, close, low, high] tuples, anything else throws. -/
def deserializeDataPoints (buffer : List ℚ) (pointCount stride : ℤ) :
    Except String DataPoints :=
  let expectedSize := pointCount * stride
  if byteLength buffer ≠ expectedSize then
    .error "Buffer size mismatch"
  else if stride = 16 then
    .ok (.xy (readPairs pointCount.toNat buffer))
  else if stride = 40 then
    .ok (.ohlc (readQuints pointCount.toNat buffer))
  else
    .error "Invalid stride: expected 16 (DataPoint) or 40 (OHLCDataPoint)"

/-- Serializes point tuples to an ArrayBuffer for zero-copy transfer,
returning the buffer and the stride (16 for DataPoint, 40 for
OHLCDataPoint, 0 for an empty input). The OHLC lane order written is the
tuple order [timestamp, open, close, low, high]. -/
def serializeDataPoints (points : DataPoints) : List ℚ × ℤ :=
  match points with
  | .xy l =>
    if l.length = 0 then ([], 0)
    else (l.flatMap (fun p => [p.1, p.2]), 16)
  | .ohlc l =>
    if l.length = 0 then ([], 0)
    else (l.flatMap (fun p => [p.1, p.2.1, p.2.2.1, p.2.2.2.1, p.2.2.2.2]), 40)

/-! ## Worker controller (ChartGPUWorkerController) -/

/-- Error codes attached to outbound error messages. -/
inductive ErrorCode where
  | WEBGPU_INIT_FAILED
  | DEVICE_LOST
  | RENDER_ERROR
  | DATA_ERROR
  | UNKNOWN
deriving DecidableEq

/-- Mutable per-chart state flags shared with the coordinator callbacks. -/
structure ChartInstanceState where
  renderPending : Bool
  disposed : Bool
  deviceLost : Bool
deriving DecidableEq

/-- A chart instance as seen by the message handlers: its state flags.
GPU context, canvas and coordinator are opaque to the properties proved
here; the coordinator calls are recorded in the handler outcomes. -/
structure ChartInstance where
  state : ChartInstanceState
deriving DecidableEq

/-- The controller's chart registry, keyed by chartId. -/
def Charts := List (String × ChartInstance)

/-- Looks up a chart, throwing if it is missing, disposed or device-lost
(getChartInstance). -/
def getChartInstance (charts : Charts) (chartId : String) :
    Except String ChartInstance :=
  match List.lookup chartId charts with
  | none => .error ("Chart not found: " ++ chartId)
  | some inst =>
    if inst.state.disposed then
      .error ("Chart is disposed: " ++ chartId)
    else if inst.state.deviceLost then
      .error ("Chart GPU device is lost: " ++ chartId)
    else
      .ok inst

/-- Observable outcome of handleAppendData: either the points handed to
coordinator.appendData, or the error code of the emitted error message. -/
inductive AppendOutcome where
  | appended (seriesIndex : ℤ) (points : DataPoints)
  | errorEmitted (code : ErrorCode)
deriving DecidableEq

/-- The appendData message handler. Validates seriesIndex and pointCount
(the isInteger check of the source is absorbed by the integer type),
resolves the chart, deserializes the buffer and forwards the points; every
thrown error is caught and emitted with code DATA_ERROR. -/
def handleAppendData (charts : Charts) (chartId : String) (seriesIndex : ℤ)
    (buffer : List ℚ) (pointCount stride : ℤ) : AppendOutcome :=
  if seriesIndex < 0 then .errorEmitted .DATA_ERROR
  else if pointCount < 0 then .errorEmitted .DATA_ERROR
  else
    match getChartInstance charts chartId with
    | .error _ => .errorEmitted .DATA_ERROR
    | .ok _ =>
      match deserializeDataPoints buffer pointCount stride with
      | .error _ => .errorEmitted .DATA_ERROR
      | .ok points => .appended seriesIndex points

/-- Observable outcome of a handler whose success is a coordinator call. -/
inductive OpOutcome where
  | performed
  | errorEmitted (code : ErrorCode)
deriving DecidableEq

/-- The setOption message handler: resolves the chart and applies the
options; errors are caught and emitted with code UNKNOWN. -/
def handleSetOption (charts : Charts) (chartId : String) : OpOutcome :=
  match getChartInstance charts chartId with
  | .error _ => .errorEmitted .UNKNOWN
  | .ok _ => .performed

/-- The forwardPointerEvent message handler: resolves the chart and
forwards the event to the coordinator; errors are caught and emitted with
code UNKNOWN. -/
def handlePointerEvent (charts : Charts) (chartId : String) : OpOutcome :=
  match getChartInstance charts chartId with
  | .error _ => .errorEmitted .UNKNOWN
  | .ok _ => .performed

/-- The resize message handler: resolves the chart (throwing when the
device is lost), validates the dimensions, reconfigures the canvas;
errors are caught and emitted with code RENDER_ERROR. The GPU
reconfiguration itself always succeeds in this model. -/
def handleResize (charts : Charts) (chartId : String)
    (width height devicePixelRatio : ℚ) : OpOutcome :=
  match getChartInstance charts chartId with
  | .error _ => .errorEmitted .RENDER_ERROR
  | .ok inst =>
    if inst.state.deviceLost then .errorEmitted .RENDER_ERROR
    else if width ≤ 0 ∨ height ≤ 0 then .errorEmitted .RENDER_ERROR
    else if devicePixelRatio ≤ 0 then .errorEmitted .RENDER_ERROR
    else .performed

/-- Observable outcome of the setZoomRange message handler. -/
inductive ZoomOutcome where
  | applied (startVal endVal : ℚ)
  | errorEmitted (code : ErrorCode)
deriving DecidableEq

/-- Worker-side setZoomRange handler: validates start and end against the
normalized interval [0, 1] and start < end, then resolves the chart and
applies the range; errors are caught and emitted with code UNKNOWN. -/
def handleSetZoomRange (charts : Charts) (chartId : String)
    (startVal endVal : ℚ) : ZoomOutcome :=
  if startVal < 0 ∨ startVal > 1 ∨ endVal < 0 ∨ endVal > 1 then
    .errorEmitted .UNKNOWN
  else if startVal ≥ endVal then
    .errorEmitted .UNKNOWN
  else
    match getChartInstance charts chartId with
    | .error _ => .errorEmitted .UNKNOWN
    | .ok _ => .applied startVal endVal

/-! ## Main-thread proxy (ChartGPUWorkerProxy) -/

/-- Error codes of ChartGPUWorkerError thrown by the proxy. -/
inductive ProxyErrorCode where
  | DISPOSED
  | INVALID_ARGUMENT
  | TIMEOUT
  | COMMUNICATION_ERROR
deriving DecidableEq

/-- Messages the proxy posts to the worker (the fields the claims need). -/
inductive WireMsg where
  | disposeMsg
  | appendDataMsg (seriesIndex : ℤ) (buffer : List ℚ) (pointCount stride : ℤ)
  | setZoomRangeMsg (startVal endVal : ℚ)
deriving DecidableEq

/-- The proxy's cached state relevant to the claims. -/
structure ProxyState where
  isDisposed : Bool
  cachedZoomRange : Option (ℚ × ℚ)
deriving DecidableEq

/-- Result of a proxy operation: the new state, the messages posted to the
worker, and the error thrown, if any. -/
structure ProxyResult where
  state : ProxyState
  sent : List WireMsg
  thrown : Option ProxyErrorCode
deriving DecidableEq

namespace ChartGPUWorkerProxy

/-- The proxy's sendMessage: its first line silently returns without
posting anything when the proxy is already disposed. -/
def sendMessage (s : ProxyState) (msg : WireMsg) : List WireMsg :=
  if s.isDisposed then [] else [msg]

/-- Proxy dispose: a second call returns immediately; the first sets
isDisposed, cleans up and only then calls sendMessage with the dispose
message — whose disposed guard, seeing the flag already set, silently
drops it, so no dispose message is ever posted to the worker. -/
def dispose (s : ProxyState) : ProxyResult :=
  if s.isDisposed then
    { state := s, sent := [], thrown := none }
  else
    let s2 := { s with isDisposed := true }
    { state := s2, sent := sendMessage s2 WireMsg.disposeMsg, thrown := none }

/-- Proxy appendData: throws DISPOSED on a disposed chart, throws
INVALID_ARGUMENT on a negative seriesIndex, is a no-op for an empty point
array, otherwise serializes and posts an appendData message. -/
def appendData (s : ProxyState) (seriesIndex : ℤ) (newPoints : DataPoints) :
    ProxyResult :=
  if s.isDisposed then
    { state := s, sent := [], thrown := some .DISPOSED }
  else if seriesIndex < 0 then
    { state := s, sent := [], thrown := some .INVALID_ARGUMENT }
  else if newPoints.count = 0 then
    { state := s, sent := [], thrown := none }
  else
    let sd := serializeDataPoints newPoints
    { state := s,
      sent := [WireMsg.appendDataMsg seriesIndex sd.1 (newPoints.count : ℤ) sd.2],
      thrown := none }

/-- Proxy setZoomRange: a silent no-op when disposed; throws
INVALID_ARGUMENT when a value is outside [0, 100] or start is not below
end; otherwise caches the range and posts a setZoomRange message. -/
def setZoomRange (s : ProxyState) (startVal endVal : ℚ) : ProxyResult :=
  if s.isDisposed then
    { state := s, sent := [], thrown := none }
  else if startVal < 0 ∨ startVal > 100 ∨ endVal < 0 ∨ endVal > 100 then
    { state := s, sent := [], thrown := some .INVALID_ARGUMENT }
  else if startVal ≥ endVal then
    { state := s, sent := [], thrown := some .INVALID_ARGUMENT }
  else
    { state := { s with cachedZoomRange := some (startVal, endVal) },
      sent := [WireMsg.setZoomRangeMsg startVal endVal], thrown := none }

end ChartGPUWorkerProxy

/-! ## Render notifier (onRequestRender and the renderChannel loop)

The coordinator calls onRequestRender after every applied update; the
callback posts one pulse on the render MessageChannel unless one is
already pending. The port's onmessage handler performs one render that
observes the chart state with all updates applied so far. -/

/-- State of one chart's render notifier: the shared flags, the number of
pulses queued on the channel, the updates applied since the last render,
the number of renders performed and the number of updates the last render
observed. -/
structure NotifierState where
  flags : ChartInstanceState
  pulses : ℕ
  updatesSinceRender : ℕ
  renders : ℕ
  lastRenderObserved : ℕ
deriving DecidableEq

/-- The renderChannel.port1.onmessage handler consuming one pulse: when the
chart is live it clears renderPending and renders (observing every update
applied so far); when the device is lost it clears renderPending and skips
the render; a disposed chart leaves the state untouched. -/
def renderTick (s : NotifierState) : NotifierState :=
  if s.pulses = 0 then s
  else if ¬s.flags.disposed ∧ ¬s.flags.deviceLost then
    { s with flags := { s.flags with renderPending := false },
             pulses := s.pulses - 1,
             renders := s.renders + 1,
             lastRenderObserved := s.updatesSinceRender,
             updatesSinceRender := 0 }
  else if s.flags.deviceLost then
    { s with flags := { s.flags with renderPending := false },
             pulses := s.pulses - 1 }
  else
    { s with pulses := s.pulses - 1 }

/-- Scheduler state: the running flag, the timestamp of the last frame and
the dirty flag set by requestRender. -/
structure SchedulerState where
  isRunning : Bool
  lastFrameTime : ℚ
  dirty : Bool
deriving DecidableEq

/-- Marks the frame dirty (requestRender). -/
def requestRender (s : SchedulerState) : SchedulerState :=
  { s with dirty := true }

/-- The frameHandler body for one animation frame at time t. Returns the
new state and whether the render callback was invoked. The callback is
invoked on every frame while running; the dirty flag is only reset. -/
def frameStep (s : SchedulerState) (t : ℚ) : SchedulerState × Bool :=
  if ¬s.isRunning then (s, false)
  else
    let s1 := { s with lastFrameTime := t }
    let s2 := if s1.dirty then { s1 with dirty := false } else s1
    (s2, true)

/-- RenderScheduler.start: marks running, records the start time and sets
the dirty flag for the first frame. -/
def schedulerStart (s : SchedulerState) (now : ℚ) : SchedulerState :=
  { s with isRunning := true, lastFrameTime := now, dirty := true }

/-! ## Concrete fixtures used by counterexamples and witnesses -/

/-- A freshly constructed proxy: not disposed, no cached zoom range. -/
def freshProxy : ProxyState :=
  { isDisposed := false, cachedZoomRange := none }

/-- A registry holding one live chart under id c. -/
def healthyCharts : Charts :=
  [("c", { state := { renderPending := false, disposed := false, deviceLost := false } })]

/-- A chart whose GPU device has been lost. -/
def lostChart : ChartInstance :=
  { state := { renderPending := false, disposed := false, deviceLost := true } }

/-- A registry holding one device-lost chart under id c. -/
def lostCharts : Charts := [("c", lostChart)]

/-- A running scheduler whose last frame left the dirty flag set. -/
def runningDirtyScheduler : SchedulerState :=
  { isRunning := true, lastFrameTime := 5, dirty := true }

/-! ## Helper lemmas -/

/-- The duplicate search succeeds (returns none) exactly when the incoming
list is duplicate-free and disjoint from the already-seen names. -/
theorem findDup_none_iff :
    ∀ (cs seen : List String),
      findDup cs seen = none ↔ cs.Nodup ∧ ∀ c ∈ cs, c ∉ seen := by
  intro cs
  induction cs with
  | nil => intro seen; simp [findDup]
  | cons c rest ih =>
    intro seen
    by_cases h : c ∈ seen
    · simp only [findDup, if_pos h]
      constructor
      · intro habs; cases habs
      · rintro ⟨-, hall⟩
        exact absurd h (hall c (List.mem_cons_self c rest))
    · simp only [findDup, if_neg h]
      rw [ih (c :: seen)]
      simp only [List.nodup_cons, List.mem_cons, not_or]
      constructor
      · rintro ⟨hnd, hall⟩
        refine ⟨⟨fun hc => (hall c hc).1 rfl, hnd⟩, ?_⟩
        rintro x (rfl | hx)
        · exact h
        · exact (hall x hx).2
      · rintro ⟨⟨hcr, hnd⟩, hall⟩
        refine ⟨hnd, fun x hx => ⟨fun hxc => hcr (hxc ▸ hx), hall x (Or.inr hx)⟩⟩

/-- The stride-16 read loop returns its pair list back from the serialized
lane stream. -/
theorem readPairs_flatMap (l : List (ℚ × ℚ)) :
    readPairs l.length (l.flatMap fun p => [p.1, p.2]) = l := by
  induction l with
  | nil => rfl
  | cons p rest ih =>
    rw [List.flatMap_cons, List.length_cons]
    show (p.1, p.2) :: readPairs rest.length (rest.flatMap fun q => [q.1, q.2]) =
      p :: rest
    rw [ih]

/-- The stride-40 read loop returns its tuple list back from the serialized
lane stream. -/
theorem readQuints_flatMap (l : List (ℚ × ℚ × ℚ × ℚ × ℚ)) :
    readQuints l.length
      (l.flatMap fun p => [p.1, p.2.1, p.2.2.1, p.2.2.2.1, p.2.2.2.2]) = l := by
  induction l with
  | nil => rfl
  | cons p rest ih =>
    rw [List.flatMap_cons, List.length_cons]
    show (p.1, p.2.1, p.2.2.1, p.2.2.2.1, p.2.2.2.2) ::
        readQuints rest.length
          (rest.flatMap fun q => [q.1, q.2.1, q.2.2.1, q.2.2.2.1, q.2.2.2.2]) =
      p :: rest
    rw [ih]

/-- Lane count written by the stride-16 serializer. -/
theorem flatMap_pair_length (l : List (ℚ × ℚ)) :
    (l.flatMap fun p => [p.1, p.2]).length = 2 * l.length := by
  induction l with
  | nil => rfl
  | cons p rest ih =>
    simp only [List.flatMap_cons, List.length_append, List.length_cons, ih]
    simp
    ring

/-- Lane count written by the stride-40 serializer. -/
theorem flatMap_quint_length (l : List (ℚ × ℚ × ℚ × ℚ × ℚ)) :
    (l.flatMap fun p => [p.1, p.2.1, p.2.2.1, p.2.2.2.1, p.2.2.2.2]).length =
      5 * l.length := by
  induction l with
  | nil => rfl
  | cons p rest ih =>
    simp only [List.flatMap_cons, List.length_append, List.length_cons, ih]
    simp
    ring

/-- The stride-16 read loop yields exactly n points from 2n lanes. -/
theorem readPairs_length :
    ∀ (n : ℕ) (buf : List ℚ), buf.length = 2 * n → (readPairs n buf).length = n := by
  intro n
  induction n with
  | zero => intro buf _; rfl
  | succ m ih =>
    intro buf hlen
    match buf with
    | [] => simp at hlen
    | [x] => simp at hlen; omega
    | x :: y :: rest =>
      simp only [readPairs, List.length_cons]
      rw [ih rest (by simp at hlen; omega)]

/-- The stride-40 read loop yields exactly n points from 5n lanes. -/
theorem readQuints_length :
    ∀ (n : ℕ) (buf : List ℚ), buf.length = 5 * n → (readQuints n buf).length = n := by
  intro n
  induction n with
  | zero => intro buf _; rfl
  | succ m ih =>
    intro buf hlen
    match buf with
    | [] => simp at hlen
    | [x] => simp at hlen; omega
    | [x, y] => simp at hlen; omega
    | [x, y, z] => simp at hlen; omega
    | [x, y, z, w] => simp at hlen; omega
    | x :: y :: z :: w :: v :: rest =>
      simp only [readQuints, List.length_cons]
      rw [ih rest (by simp at hlen; omega)]

/-! ## Claim C8 -/

/-- C8: for every value v, whenever a linear scale's domain and range are
both non-degenerate, invert (scale v) = v exactly over exact arithmetic
(the rationals standing in for f64). -/
theorem linear_scale_round_trip (s : LinearScale) (v : ℚ)
    (hd : s.domainMin ≠ s.domainMax) (hr : s.rangeMin ≠ s.rangeMax) :
    s.invert (s.scale v) = v := by
  have hd2 : s.domainMax - s.domainMin ≠ 0 := sub_ne_zero.mpr (Ne.symm hd)
  have hr2 : s.rangeMax - s.rangeMin ≠ 0 := sub_ne_zero.mpr (Ne.symm hr)
  unfold LinearScale.scale LinearScale.invert
  rw [if_neg hd, if_neg hd, if_neg hr]
  field_simp
  ring

/-- Witness for C8: the scale with domain [0, 2] and range [10, 30] round
trips the value 5. -/
theorem linear_scale_round_trip_witness :
    (0 : ℚ) ≠ 2 ∧ (10 : ℚ) ≠ 30 ∧
    LinearScale.invert ⟨0, 2, 10, 30⟩ (LinearScale.scale ⟨0, 2, 10, 30⟩ 5) = 5 :=
  ⟨by norm_num, by norm_num,
    linear_scale_round_trip ⟨0, 2, 10, 30⟩ 5 (by norm_num) (by norm_num)⟩

/-! ## Claim C9 -/

/-- C9: a category scale with N unique labels maps label i to the center
of the i-th of N equal bands, rangeMin + (i + 1/2)·(rangeMax − rangeMin)/N;
setting a domain with duplicate labels is rejected with an error; scaling
an unknown category returns NaN (none); bandwidth is
|rangeMax − rangeMin| / N. -/
theorem category_scale_spec (s : CategoryScale) (cs : List String) :
    (¬cs.Nodup → ∀ s2, s.setDomain cs ≠ Except.ok s2) ∧
    (∀ s', s.setDomain cs = Except.ok s' →
      cs.Nodup ∧
      (∀ i : Fin cs.length,
        s'.scale (cs.get i) =
          some (s.rangeMin +
            ((i.val : ℚ) + 1/2) * ((s.rangeMax - s.rangeMin) / (cs.length : ℚ)))) ∧
      (∀ c, c ∉ cs → cs.length ≠ 0 → s'.scale c = none) ∧
      (cs.length ≠ 0 →
        s'.bandwidth = |s.rangeMax - s.rangeMin| / (cs.length : ℚ))) := by
  constructor
  · intro hdup s2 hok
    unfold CategoryScale.setDomain at hok
    cases hfd : findDup cs [] with
    | some c => rw [hfd] at hok; cases hok
    | none =>
      have := (findDup_none_iff cs []).mp hfd
      exact hdup this.1
  · intro s' hok
    unfold CategoryScale.setDomain at hok
    cases hfd : findDup cs [] with
    | some c => rw [hfd] at hok; cases hok
    | none =>
      rw [hfd] at hok
      have hnd : cs.Nodup := ((findDup_none_iff cs []).mp hfd).1
      have hs' : s' = { s with categories := cs } := by
        cases hok; rfl
      subst hs'
      refine ⟨hnd, ?_, ?_, ?_⟩
      · intro i
        have hpos : cs.length ≠ 0 := Nat.not_eq_zero_of_lt i.isLt
        have hmem : cs.get i ∈ cs := List.get_mem cs i.val i.isLt
        unfold CategoryScale.scale CategoryScale.categoryIndex
        simp only [if_neg hpos, if_pos hmem]
        have hidx : cs.indexOf (cs.get i) = i.val := by
          have := List.indexOf_getElem hnd i.val i.isLt
          simpa [List.get_eq_getElem] using this
        rw [hidx]
        have hnneg : ¬((i.val : ℤ) < 0) := by omega
        simp only [if_neg hnneg]
        norm_num
      · intro c hc hn
        unfold CategoryScale.scale CategoryScale.categoryIndex
        simp only [if_neg hn, if_neg hc]
        norm_num
      · intro hn
        unfold CategoryScale.bandwidth
        simp only [if_neg hn]
        rw [abs_div]
        congr 1
        exact abs_of_nonneg (by positivity)

/-- Witness for C9: the two-label domain over range [0, 100] maps its
first label to the first band center, an unknown label to none, and has
bandwidth 50; a duplicated domain is rejected. -/
theorem category_scale_spec_witness :
    CategoryScale.scale ⟨["a", "b"], 0, 100⟩ "a" =
      some (0 + ((0 : ℚ) + 1/2) * ((100 - 0) / 2)) ∧
    CategoryScale.scale ⟨["a", "b"], 0, 100⟩ "zz" = none ∧
    CategoryScale.bandwidth ⟨["a", "b"], 0, 100⟩ = |(100 : ℚ) - 0| / 2 ∧
    ∀ s2, CategoryScale.setDomain ⟨[], 0, 100⟩ ["a", "a"] ≠ Except.ok s2 := by
  have h := category_scale_spec (⟨[], 0, 100⟩ : CategoryScale) ["a", "b"]
  have hok : CategoryScale.setDomain ⟨[], 0, 100⟩ ["a", "b"] =
      Except.ok ⟨["a", "b"], 0, 100⟩ := by rfl
  have hmain := (h).2 ⟨["a", "b"], 0, 100⟩ hok
  have hdup := (category_scale_spec (⟨[], 0, 100⟩ : CategoryScale) ["a", "a"]).1
    (by decide)
  refine ⟨?_, ?_, ?_, hdup⟩
  · have h1 := hmain.2.1 ⟨0, by norm_num⟩
    simpa using h1
  · exact hmain.2.2.1 "zz" (by decide) (by norm_num)
  · have h2 := hmain.2.2.2 (by norm_num)
    simpa using h2

/-! ## Claim C10 -/

/-- C10: non-empty [x, y] and OHLC tuple arrays cross the worker bridge
unchanged: deserializing the buffer produced by the proxy-side serializer
(with the count and stride it reports) returns the input tuples; both
sides use lane order [x, y] for stride 16 and
[timestamp, open, close, low, high] for stride 40. -/
theorem serialize_deserialize_round_trip
    (l2 : List (ℚ × ℚ)) (l5 : List (ℚ × ℚ × ℚ × ℚ × ℚ))
    (h2 : l2 ≠ []) (h5 : l5 ≠ []) :
    deserializeDataPoints (serializeDataPoints (.xy l2)).1 (l2.length : ℤ)
        (serializeDataPoints (.xy l2)).2 = Except.ok (.xy l2) ∧
    deserializeDataPoints (serializeDataPoints (.ohlc l5)).1 (l5.length : ℤ)
        (serializeDataPoints (.ohlc l5)).2 = Except.ok (.ohlc l5) := by
  have hl2 : l2.length ≠ 0 := fun h => h2 (List.length_eq_zero.mp h)
  have hl5 : l5.length ≠ 0 := fun h => h5 (List.length_eq_zero.mp h)
  constructor
  · simp only [serializeDataPoints, if_neg hl2]
    have hsize : byteLength (l2.flatMap fun p => [p.1, p.2]) =
        (l2.length : ℤ) * 16 := by
      unfold byteLength
      rw [flatMap_pair_length]
      push_cast
      ring
    unfold deserializeDataPoints
    rw [if_neg (by rw [hsize]; simp), if_pos rfl]
    rw [Int.toNat_natCast, readPairs_flatMap]
  · simp only [serializeDataPoints, if_neg hl5]
    have hsize : byteLength
        (l5.flatMap fun p => [p.1, p.2.1, p.2.2.1, p.2.2.2.1, p.2.2.2.2]) =
        (l5.length : ℤ) * 40 := by
      unfold byteLength
      rw [flatMap_quint_length]
      push_cast
      ring
    unfold deserializeDataPoints
    rw [if_neg (by rw [hsize]; simp), if_neg (by norm_num), if_pos rfl]
    rw [Int.toNat_natCast, readQuints_flatMap]

/-- Witness for C10: the singleton pair list and the singleton OHLC list
round trip through serialize and deserialize. -/
theorem serialize_deserialize_round_trip_witness :
    deserializeDataPoints (serializeDataPoints (.xy [(1, 2)])).1
        (([((1 : ℚ), (2 : ℚ))].length : ℤ))
        (serializeDataPoints (.xy [(1, 2)])).2 = Except.ok (.xy [(1, 2)]) ∧
    deserializeDataPoints (serializeDataPoints (.ohlc [(1, 2, 3, 4, 5)])).1
        (([((1 : ℚ), (2 : ℚ), (3 : ℚ), (4 : ℚ), (5 : ℚ))].length : ℤ))
        (serializeDataPoints (.ohlc [(1, 2, 3, 4, 5)])).2 =
      Except.ok (.ohlc [(1, 2, 3, 4, 5)]) :=
  serialize_deserialize_round_trip [(1, 2)] [(1, 2, 3, 4, 5)]
    (by simp) (by simp)

/-! ## Claim C5 -/

/-- Shared fact: when deserialization fails, handleAppendData appends
nothing and emits a DATA_ERROR, whatever the registry contents are. -/
theorem handleAppendData_dataError_of_deser_error
    (charts : Charts) (chartId : String) (seriesIndex : ℤ)
    (buffer : List ℚ) (pointCount stride : ℤ)
    (hde : (deserializeDataPoints buffer pointCount stride).toOption = none) :
    handleAppendData charts chartId seriesIndex buffer pointCount stride =
      .errorEmitted .DATA_ERROR := by
  unfold handleAppendData
  by_cases h1 : seriesIndex < 0
  · rw [if_pos h1]
  · rw [if_neg h1]
    by_cases hp : pointCount < 0
    · rw [if_pos hp]
    · rw [if_neg hp]
      cases hg : getChartInstance charts chartId with
      | error e => rfl
      | ok inst =>
        cases hd : deserializeDataPoints buffer pointCount stride with
        | error e => rfl
        | ok pts => rw [hd] at hde; cases hde

/-- Shared fact: a size mismatch makes deserialization fail. -/
theorem deser_error_of_size_mismatch (buffer : List ℚ) (pointCount stride : ℤ)
    (hne : byteLength buffer ≠ pointCount * stride) :
    (deserializeDataPoints buffer pointCount stride).toOption = none := by
  unfold deserializeDataPoints
  rw [if_pos hne]
  rfl

/-- C5: appendData with a buffer whose byteLength differs from
count · stride appends nothing and reports a DataError; for stride 16 or
40 with byteLength = count · stride, deserialization returns exactly
count points. -/
theorem appendData_size_validation
    (charts : Charts) (chartId : String) (seriesIndex : ℤ)
    (buffer : List ℚ) (pointCount stride : ℤ) :
    (byteLength buffer ≠ pointCount * stride →
      handleAppendData charts chartId seriesIndex buffer pointCount stride =
        .errorEmitted .DATA_ERROR) ∧
    ((stride = 16 ∨ stride = 40) → byteLength buffer = pointCount * stride →
      ∃ pts, deserializeDataPoints buffer pointCount stride = Except.ok pts ∧
        (pts.count : ℤ) = pointCount) := by
  constructor
  · intro hne
    exact handleAppendData_dataError_of_deser_error charts chartId seriesIndex
      buffer pointCount stride
      (deser_error_of_size_mismatch buffer pointCount stride hne)
  · rintro (rfl | rfl) heq
    · have hpc : 0 ≤ pointCount := by
        unfold byteLength at heq
        omega
      have hlen : buffer.length = 2 * pointCount.toNat := by
        unfold byteLength at heq
        omega
      refine ⟨.xy (readPairs pointCount.toNat buffer), ?_, ?_⟩
      · unfold deserializeDataPoints
        rw [if_neg (by omega), if_pos rfl]
      · simp only [DataPoints.count]
        rw [readPairs_length pointCount.toNat buffer hlen]
        omega
    · have hpc : 0 ≤ pointCount := by
        unfold byteLength at heq
        omega
      have hlen : buffer.length = 5 * pointCount.toNat := by
        unfold byteLength at heq
        omega
      refine ⟨.ohlc (readQuints pointCount.toNat buffer), ?_, ?_⟩
      · unfold deserializeDataPoints
        rw [if_neg (by omega), if_neg (by norm_num), if_pos rfl]
      · simp only [DataPoints.count]
        rw [readQuints_length pointCount.toNat buffer hlen]
        omega

/-- Witness for C5: a one-lane buffer claimed to hold 3 stride-16 points
is rejected with DATA_ERROR; a two-lane buffer holding one stride-16
point deserializes into exactly one point. -/
theorem appendData_size_validation_witness :
    handleAppendData [] "c" 0 [1, 2] 3 16 = .errorEmitted .DATA_ERROR ∧
    ∃ pts, deserializeDataPoints [1, 2] 1 16 = Except.ok pts ∧
      (pts.count : ℤ) = 1 :=
  ⟨(appendData_size_validation [] "c" 0 [1, 2] 3 16).1 (by decide),
    (appendData_size_validation [] "c" 0 [1, 2] 1 16).2 (Or.inl rfl) (by decide)⟩

/-! ## Claim C4 -/

/-- Shared fact: a stride other than 16 or 40 makes deserialization fail. -/
theorem deser_error_of_bad_stride (buffer : List ℚ) (pointCount stride : ℤ)
    (h16 : stride ≠ 16) (h40 : stride ≠ 40) :
    (deserializeDataPoints buffer pointCount stride).toOption = none := by
  unfold deserializeDataPoints
  by_cases hs : byteLength buffer ≠ pointCount * stride
  · rw [if_pos hs]; rfl
  · rw [if_neg hs, if_neg h16, if_neg h40]; rfl

/-- C4 counterexample: well-formed stride-8 and stride-20 buffers with
byteLength = count · stride are rejected by the deserializer and the
appendData handler emits DATA_ERROR, contradicting the claimed acceptance
of the packed-f32 layouts. -/
theorem packed_stride_rejected_cex :
    (deserializeDataPoints [1, 2] 2 8).toOption = none ∧
    (deserializeDataPoints [1, 2, 3, 4, 5] 2 20).toOption = none ∧
    handleAppendData [] "c" 0 [1, 2] 2 8 = .errorEmitted .DATA_ERROR := by
  refine ⟨rfl, rfl, rfl⟩

/-- C4 (amended): the worker appendData path accepts only the f64 layouts,
stride 16 ([x, y]) and stride 40 (five lanes); a buffer with stride 8 or
20 is never deserialized and the handler emits DATA_ERROR; for stride 16
or 40 with byteLength = count · stride the buffer deserializes into
exactly count points. -/
theorem deserialize_stride_acceptance
    (charts : Charts) (chartId : String) (seriesIndex : ℤ)
    (buffer : List ℚ) (pointCount stride : ℤ) :
    (stride = 8 ∨ stride = 20 →
      handleAppendData charts chartId seriesIndex buffer pointCount stride =
        .errorEmitted .DATA_ERROR) ∧
    (stride = 16 → byteLength buffer = pointCount * 16 →
      deserializeDataPoints buffer pointCount stride =
        Except.ok (.xy (readPairs pointCount.toNat buffer)) ∧
      (readPairs pointCount.toNat buffer).length = pointCount.toNat) ∧
    (stride = 40 → byteLength buffer = pointCount * 40 →
      deserializeDataPoints buffer pointCount stride =
        Except.ok (.ohlc (readQuints pointCount.toNat buffer)) ∧
      (readQuints pointCount.toNat buffer).length = pointCount.toNat) := by
  refine ⟨?_, ?_, ?_⟩
  · rintro (rfl | rfl) <;>
      exact handleAppendData_dataError_of_deser_error charts chartId
        seriesIndex buffer pointCount _
        (deser_error_of_bad_stride buffer pointCount _ (by norm_num)
          (by norm_num))
  · rintro rfl heq
    have hlen : buffer.length = 2 * pointCount.toNat := by
      unfold byteLength at heq
      omega
    constructor
    · unfold deserializeDataPoints
      rw [if_neg (by omega), if_pos rfl]
    · exact readPairs_length pointCount.toNat buffer hlen
  · rintro rfl heq
    have hlen : buffer.length = 5 * pointCount.toNat := by
      unfold byteLength at heq
      omega
    constructor
    · unfold deserializeDataPoints
      rw [if_neg (by omega), if_neg (by norm_num), if_pos rfl]
    · exact readQuints_length pointCount.toNat buffer hlen

/-- Witness for C4 (amended): stride 8 on a two-lane buffer emits
DATA_ERROR; stride 16 on a two-lane buffer deserializes one point. -/
theorem deserialize_stride_acceptance_witness :
    handleAppendData [] "w" 0 [1, 2] 2 8 = .errorEmitted .DATA_ERROR ∧
    deserializeDataPoints [1, 2] 1 16 =
      Except.ok (.xy (readPairs (1 : ℤ).toNat [1, 2])) ∧
    (readPairs (1 : ℤ).toNat [(1 : ℚ), 2]).length = (1 : ℤ).toNat :=
  ⟨(deserialize_stride_acceptance [] "w" 0 [1, 2] 2 8).1 (Or.inl rfl),
    ((deserialize_stride_acceptance [] "w" 0 [1, 2] 1 16).2.1 rfl (by decide)).1,
    ((deserialize_stride_acceptance [] "w" 0 [1, 2] 1 16).2.1 rfl (by decide)).2⟩

/-! ## Claim C1 -/

/-- C1 counterexample: setZoomRange(-10, 50) on a live proxy is rejected
with an INVALID_ARGUMENT throw and the zoom state is left untouched — the
arguments are not clamped into [0, 100]; and the in-range percent request
(10, 50) forwarded to the worker handler is rejected by its [0, 1]
validation instead of being applied. -/
theorem setZoomRange_not_clamped_cex :
    (ChartGPUWorkerProxy.setZoomRange freshProxy (-10) 50).thrown =
      some ProxyErrorCode.INVALID_ARGUMENT ∧
    (ChartGPUWorkerProxy.setZoomRange freshProxy (-10) 50).state.cachedZoomRange =
      none ∧
    handleSetZoomRange healthyCharts "c" 10 50 =
      ZoomOutcome.errorEmitted ErrorCode.UNKNOWN := by
  refine ⟨?_, ?_, ?_⟩ <;>
    simp [ChartGPUWorkerProxy.setZoomRange, handleSetZoomRange, freshProxy,
      healthyCharts]

/-- C1 (amended): setZoomRange validates instead of clamping. On a live
proxy, an argument outside [0, 100] or start ≥ end throws
INVALID_ARGUMENT and leaves the state unchanged; a request with
0 ≤ start < end ≤ 100 is cached and forwarded; the worker-side handler
however validates the forwarded pair against [0, 1], so a forwarded pair
with end ≤ 1 reaches the coordinator and one with end > 1 is answered
with an emitted error. -/
theorem setZoomRange_validation (s : ProxyState) (startVal endVal : ℚ)
    (hnd : s.isDisposed = false) :
    ((startVal < 0 ∨ startVal > 100 ∨ endVal < 0 ∨ endVal > 100 ∨
        startVal ≥ endVal) →
      (ChartGPUWorkerProxy.setZoomRange s startVal endVal).thrown =
        some ProxyErrorCode.INVALID_ARGUMENT ∧
      (ChartGPUWorkerProxy.setZoomRange s startVal endVal).state = s) ∧
    (0 ≤ startVal → startVal < endVal → endVal ≤ 100 →
      (ChartGPUWorkerProxy.setZoomRange s startVal endVal).thrown = none ∧
      (ChartGPUWorkerProxy.setZoomRange s startVal endVal).state.cachedZoomRange =
        some (startVal, endVal) ∧
      (ChartGPUWorkerProxy.setZoomRange s startVal endVal).sent =
        [WireMsg.setZoomRangeMsg startVal endVal]) ∧
    (∀ charts chartId inst, List.lookup chartId charts = some inst →
      inst.state.disposed = false → inst.state.deviceLost = false →
      (0 ≤ startVal → startVal < endVal → endVal ≤ 1 →
        handleSetZoomRange charts chartId startVal endVal =
          ZoomOutcome.applied startVal endVal) ∧
      (endVal > 1 →
        handleSetZoomRange charts chartId startVal endVal =
          ZoomOutcome.errorEmitted ErrorCode.UNKNOWN)) := by
  refine ⟨?_, ?_, ?_⟩
  · intro hbad
    unfold ChartGPUWorkerProxy.setZoomRange
    rw [if_neg (by simp [hnd])]
    rcases hbad with h | h | h | h | h
    · rw [if_pos (by tauto)]; exact ⟨rfl, rfl⟩
    · rw [if_pos (by tauto)]; exact ⟨rfl, rfl⟩
    · rw [if_pos (by tauto)]; exact ⟨rfl, rfl⟩
    · rw [if_pos (by tauto)]; exact ⟨rfl, rfl⟩
    · by_cases hout : startVal < 0 ∨ startVal > 100 ∨ endVal < 0 ∨ endVal > 100
      · rw [if_pos hout]; exact ⟨rfl, rfl⟩
      · rw [if_neg hout, if_pos h]; exact ⟨rfl, rfl⟩
  · intro h0 hlt h100
    unfold ChartGPUWorkerProxy.setZoomRange
    rw [if_neg (by simp [hnd]),
      if_neg (by push_neg; exact ⟨by linarith, by linarith, by linarith, h100⟩),
      if_neg (by push_neg; exact hlt)]
    exact ⟨rfl, rfl, rfl⟩
  · intro charts chartId inst hlk hd hl
    constructor
    · intro h0 hlt h1
      unfold handleSetZoomRange
      rw [if_neg (by push_neg; exact ⟨h0, by linarith, by linarith, h1⟩),
        if_neg (by push_neg; exact hlt)]
      unfold getChartInstance
      rw [hlk]
      simp [hd, hl]
    · intro h1
      unfold handleSetZoomRange
      rw [if_pos (by tauto)]

/-- Witness for C1 (amended): on a fresh proxy (150, 200) throws
INVALID_ARGUMENT, (10, 50) is cached and forwarded, and the worker handler
applies (1/10, 1/2) but rejects (10, 50). -/
theorem setZoomRange_validation_witness :
    (ChartGPUWorkerProxy.setZoomRange freshProxy 150 200).thrown =
      some ProxyErrorCode.INVALID_ARGUMENT ∧
    (ChartGPUWorkerProxy.setZoomRange freshProxy 10 50).state.cachedZoomRange =
      some (10, 50) ∧
    handleSetZoomRange healthyCharts "c" (1/10) (1/2) =
      ZoomOutcome.applied (1/10) (1/2) ∧
    handleSetZoomRange healthyCharts "c" 10 50 =
      ZoomOutcome.errorEmitted ErrorCode.UNKNOWN := by
  have hfresh : freshProxy.isDisposed = false := rfl
  have hlk : List.lookup "c" healthyCharts = some ⟨⟨false, false, false⟩⟩ := by
    rfl
  refine ⟨((setZoomRange_validation freshProxy 150 200 hfresh).1
      (by norm_num)).1, ?_, ?_, ?_⟩
  · exact ((setZoomRange_validation freshProxy 10 50 hfresh).2.1
      (by norm_num) (by norm_num) (by norm_num)).2.1
  · exact (((setZoomRange_validation freshProxy (1/10) (1/2) hfresh).2.2
      healthyCharts "c" _ hlk rfl rfl).1 (by norm_num) (by norm_num)
      (by norm_num))
  · exact (((setZoomRange_validation freshProxy 10 50 hfresh).2.2
      healthyCharts "c" _ hlk rfl rfl).2 (by norm_num))

/-! ## Claim C3 -/

/-- C3 counterexample: appendData on a device-lost chart emits the
DATA_ERROR code of its catch-all handler, not the DeviceLost code the
claim requires. -/
theorem deviceLost_code_cex :
    handleAppendData lostCharts "c" 0 [1, 2] 1 16 =
      AppendOutcome.errorEmitted ErrorCode.DATA_ERROR ∧
    ErrorCode.DATA_ERROR ≠ ErrorCode.DEVICE_LOST := by
  exact ⟨rfl, by decide⟩

/-- C3 (amended): once a chart's device is lost the state is terminal:
every subsequent operation performs no work and is reported through an
emitted error — appendData with code DATA_ERROR, setOption and forwarded
pointer events with UNKNOWN, resize with RENDER_ERROR (never the dedicated
DEVICE_LOST code) — and the render loop produces no further frames for the
chart. -/
theorem deviceLost_terminal (charts : Charts) (chartId : String)
    (inst : ChartInstance) (hlk : List.lookup chartId charts = some inst)
    (hlost : inst.state.deviceLost = true)
    (seriesIndex : ℤ) (buffer : List ℚ) (pointCount stride : ℤ)
    (width height dpr : ℚ) :
    handleAppendData charts chartId seriesIndex buffer pointCount stride =
      AppendOutcome.errorEmitted ErrorCode.DATA_ERROR ∧
    handleSetOption charts chartId = OpOutcome.errorEmitted ErrorCode.UNKNOWN ∧
    handlePointerEvent charts chartId =
      OpOutcome.errorEmitted ErrorCode.UNKNOWN ∧
    handleResize charts chartId width height dpr =
      OpOutcome.errorEmitted ErrorCode.RENDER_ERROR ∧
    (∀ ns : NotifierState, ns.flags = inst.state →
      (renderTick ns).renders = ns.renders) := by
  have hget : (getChartInstance charts chartId).toOption = none := by
    unfold getChartInstance
    rw [hlk]
    by_cases hd : inst.state.disposed <;> simp [hd, hlost, Except.toOption]
  refine ⟨?_, ?_, ?_, ?_, ?_⟩
  · unfold handleAppendData
    by_cases h1 : seriesIndex < 0
    · rw [if_pos h1]
    · rw [if_neg h1]
      by_cases hp : pointCount < 0
      · rw [if_pos hp]
      · rw [if_neg hp]
        cases hg : getChartInstance charts chartId with
        | error e => rfl
        | ok i => rw [hg] at hget; simp [Except.toOption] at hget
  · unfold handleSetOption
    cases hg : getChartInstance charts chartId with
    | error e => rfl
    | ok i => rw [hg] at hget; simp [Except.toOption] at hget
  · unfold handlePointerEvent
    cases hg : getChartInstance charts chartId with
    | error e => rfl
    | ok i => rw [hg] at hget; simp [Except.toOption] at hget
  · unfold handleResize
    cases hg : getChartInstance charts chartId with
    | error e => rfl
    | ok i => rw [hg] at hget; simp [Except.toOption] at hget
  · intro ns hns
    unfold renderTick
    by_cases hz : ns.pulses = 0
    · rw [if_pos hz]
    · rw [if_neg hz, if_neg (by rw [hns, hlost]; simp),
        if_pos (by rw [hns, hlost])]

/-- Witness for C3 (amended): the concrete device-lost registry reports
DATA_ERROR, UNKNOWN, UNKNOWN and RENDER_ERROR for the four operations and
its render loop consumes a pulse without rendering. -/
theorem deviceLost_terminal_witness :
    handleAppendData lostCharts "c" 1 [1, 2] 1 16 =
      AppendOutcome.errorEmitted ErrorCode.DATA_ERROR ∧
    handleSetOption lostCharts "c" = OpOutcome.errorEmitted ErrorCode.UNKNOWN ∧
    handlePointerEvent lostCharts "c" =
      OpOutcome.errorEmitted ErrorCode.UNKNOWN ∧
    handleResize lostCharts "c" 800 600 2 =
      OpOutcome.errorEmitted ErrorCode.RENDER_ERROR ∧
    (∀ ns : NotifierState, ns.flags = lostChart.state →
      (renderTick ns).renders = ns.renders) :=
  deviceLost_terminal lostCharts "c" lostChart rfl rfl 1 [1, 2] 1 16 800 600 2

/-! ## Claim C6 -/

/-- C6: dispose is idempotent at the public proxy interface: the first
call marks the proxy disposed without throwing (its own dispose message is
silently dropped by sendMessage's disposed guard, so nothing is posted);
the second call changes nothing, sends nothing and throws nothing; and a
subsequent appendData fails with the DISPOSED error code. -/
theorem dispose_idempotent (s : ProxyState) (hnd : s.isDisposed = false)
    (seriesIndex : ℤ) (pts : DataPoints) :
    (ChartGPUWorkerProxy.dispose s).thrown = none ∧
    (ChartGPUWorkerProxy.dispose s).state.isDisposed = true ∧
    (ChartGPUWorkerProxy.dispose s).sent = [] ∧
    (ChartGPUWorkerProxy.dispose (ChartGPUWorkerProxy.dispose s).state).thrown =
      none ∧
    (ChartGPUWorkerProxy.dispose (ChartGPUWorkerProxy.dispose s).state).state =
      (ChartGPUWorkerProxy.dispose s).state ∧
    (ChartGPUWorkerProxy.dispose (ChartGPUWorkerProxy.dispose s).state).sent =
      [] ∧
    (ChartGPUWorkerProxy.appendData (ChartGPUWorkerProxy.dispose s).state
      seriesIndex pts).thrown = some ProxyErrorCode.DISPOSED ∧
    (ChartGPUWorkerProxy.appendData (ChartGPUWorkerProxy.dispose s).state
      seriesIndex pts).sent = [] := by
  unfold ChartGPUWorkerProxy.dispose ChartGPUWorkerProxy.sendMessage
    ChartGPUWorkerProxy.appendData
  simp [hnd]

/-- Witness for C6: a fresh proxy disposed twice takes no action the
second time and rejects appendData with DISPOSED. -/
theorem dispose_idempotent_witness :
    (ChartGPUWorkerProxy.dispose freshProxy).thrown = none ∧
    (ChartGPUWorkerProxy.dispose freshProxy).state.isDisposed = true ∧
    (ChartGPUWorkerProxy.dispose freshProxy).sent = [] ∧
    (ChartGPUWorkerProxy.dispose
      (ChartGPUWorkerProxy.dispose freshProxy).state).thrown = none ∧
    (ChartGPUWorkerProxy.dispose
        (ChartGPUWorkerProxy.dispose freshProxy).state).state =
      (ChartGPUWorkerProxy.dispose freshProxy).state ∧
    (ChartGPUWorkerProxy.dispose
      (ChartGPUWorkerProxy.dispose freshProxy).state).sent = [] ∧
    (ChartGPUWorkerProxy.appendData
      (ChartGPUWorkerProxy.dispose freshProxy).state 0
      (DataPoints.xy [(1, 2)])).thrown = some ProxyErrorCode.DISPOSED ∧
    (ChartGPUWorkerProxy.appendData
      (ChartGPUWorkerProxy.dispose freshProxy).state 0
      (DataPoints.xy [(1, 2)])).sent = [] :=
  dispose_idempotent freshProxy rfl 0 (DataPoints.xy [(1, 2)])

/-! ## Claim C7 -/

/-- C2 counterexample: a running scheduler whose dirty flag is false (no
requestRender since the last frame) still invokes the render callback on
the next frame, contradicting the claimed frame skipping. -/
theorem scheduler_clean_frame_cex :
    (frameStep { isRunning := true, lastFrameTime := 0, dirty := false }
      16).2 = true := rfl

/-- C2 (amended): while the loop runs the scheduler invokes the render
callback on every frame whether or not a dirty mark was made; the dirty
flag set by requestRender is cleared by the frame but does not gate the
callback; a stopped scheduler invokes nothing. -/
theorem scheduler_always_invokes (s : SchedulerState) (t : ℚ) :
    (s.isRunning = true →
      (frameStep s t).2 = true ∧
      (frameStep s t).1.dirty = false ∧
      (frameStep (requestRender s) t).2 = true) ∧
    (s.isRunning = false → frameStep s t = (s, false)) ∧
    (requestRender s).dirty = true := by
  refine ⟨?_, ?_, rfl⟩
  · intro hrun
    unfold frameStep requestRender
    rw [if_neg (by simp [hrun]), if_neg (by simp [hrun])]
    refine ⟨rfl, ?_, rfl⟩
    by_cases hdirty : s.dirty <;> simp [hdirty]
  · intro hstop
    unfold frameStep
    rw [if_pos (by simp [hstop])]

/-- Witness for C2 (amended): the concrete running scheduler with a clean
dirty flag still runs its callback and ends the frame clean. -/
theorem scheduler_always_invokes_witness :
    (frameStep { isRunning := true, lastFrameTime := 5, dirty := true }
      21).2 = true ∧
    (frameStep { isRunning := true, lastFrameTime := 5, dirty := true }
      21).1.dirty = false ∧
    (frameStep (requestRender
      { isRunning := true, lastFrameTime := 5, dirty := true }) 21).2 = true :=
  (scheduler_always_invokes
    { isRunning := true, lastFrameTime := 5, dirty := true } 21).1 rfl

end ChartGPU
